import Mathlib

/-!
Verification development for the Turning-Movement dashboard (src/app.py).

The script is a linear pipeline: query a table, coerce LATITUDE/LONGITUDE
to numeric and DATE to datetime with invalid values becoming null, drop
rows with nulls in those three columns, keep rows inside a hardcoded
latitude/longitude bounding box, write the cleaned table back with
replace semantics, apply a user date-range filter and an optional
intersection filter, aggregate the top 10 intersections by summed
AUTONBL, and run an ML prediction query from two numeric inputs.

Tables are embedded as lists of rows.  Floating-point cell values
produced by `pd.to_numeric(errors="coerce")` are embedded as `PVal`:
NaN (pandas null), positive or negative infinity, or a finite value
(a rational).  Comparisons on `PVal` follow IEEE semantics: every
comparison involving NaN is false, infinities compare in the usual way.
Timestamps produced by `pd.to_datetime(errors="coerce")` are embedded as
integers counting seconds, with `none` standing for NaT.
-/

/-- A floating-point value as produced by `pd.to_numeric(errors="coerce")`:
pandas null / NaN, an infinity, or a finite value. -/
inductive PVal where
  | nan : PVal
  | posInf : PVal
  | negInf : PVal
  | fin : ℚ → PVal
deriving DecidableEq, Repr

namespace PVal

/-- IEEE `<` on coerced values: any comparison with NaN is false. -/
def ltB : PVal → PVal → Bool
  | nan, _ => false
  | _, nan => false
  | fin a, fin b => a < b
  | fin _, posInf => true
  | negInf, fin _ => true
  | negInf, posInf => true
  | posInf, _ => false
  | fin _, negInf => false
  | negInf, negInf => false

/-- IEEE `>` on coerced values. -/
def gtB (a b : PVal) : Bool := ltB b a

/-- `isna`: only NaN counts as null for a float column in pandas. -/
def isna : PVal → Bool
  | nan => true
  | _ => false

end PVal

/-- One raw row of `proj-452520.TMC.TurningMC` as fetched, restricted to the
columns the script touches.  `latitude`/`longitude` hold the value
`pd.to_numeric(errors="coerce")` yields (with `none` for a null or
unparseable cell), `date` holds the timestamp `pd.to_datetime` yields
(`none` for null/invalid, i.e. NaT), `intname` the INTNAME cell (`none`
for null), `autonbl` the AUTONBL count. -/
structure RawRow where
  latitude : Option PVal
  longitude : Option PVal
  date : Option Int
  intname : Option String
  autonbl : Int
deriving DecidableEq, Repr

/-- One row after the three column coercions of app.py lines 14-16. -/
structure Row where
  latitude : PVal
  longitude : PVal
  date : Option Int
  intname : Option String
  autonbl : Int
deriving DecidableEq, Repr

/-- `pd.to_numeric(errors="coerce")` on one cell: a null cell becomes NaN,
everything else keeps its coerced value. -/
def to_numeric : Option PVal → PVal
  | none => .nan
  | some v => v

/-- Lines 14-16: coerce the LATITUDE, LONGITUDE and DATE columns of a row. -/
def coerceRow (r : RawRow) : Row :=
  { latitude := to_numeric r.latitude
    longitude := to_numeric r.longitude
    date := r.date
    intname := r.intname
    autonbl := r.autonbl }

/-- Line 18: `df.dropna(subset=["LATITUDE", "LONGITUDE", "DATE"])`. -/
def dropna3 (df : List Row) : List Row :=
  df.filter fun r => !r.latitude.isna && !r.longitude.isna && !r.date.isNone

/-- Lines 19-22: the hardcoded bounding-box predicate
`(LATITUDE > 37.0) & (LATITUDE < 38.0) & (LONGITUDE > -122.5) & (LONGITUDE < -121.5)`;
-122.5 and -121.5 are written as the exact rationals -245/2 and -243/2. -/
def bboxCheck (r : Row) : Bool :=
  r.latitude.gtB (.fin 37) && r.latitude.ltB (.fin 38) &&
  r.longitude.gtB (.fin (Rat.divInt (-245) 2)) &&
  r.longitude.ltB (.fin (Rat.divInt (-243) 2))

/-- Lines 19-22: restrict to rows inside the bounding box. -/
def bboxFilter (df : List Row) : List Row :=
  df.filter bboxCheck

/-- Lines 14-22: `df_cleaned`, the full cleaning step — column coercion,
null-drop on the three required columns, bounding-box filter. -/
def df_cleaned (df : List RawRow) : List Row :=
  bboxFilter (dropna3 (df.map coerceRow))

/-- Line 36: the second `dropna(subset=["DATE"])` applied to `df_cleaned`. -/
def dropna_DATE (df : List Row) : List Row :=
  df.filter fun r => !r.date.isNone

/-- `pd.to_datetime` of a `datetime.date` from the date-range picker:
midnight of that day, as a second count (day `d` ↦ `86400 * d`). -/
def midnightOf (d : Int) : Int := 86400 * d

/-- The calendar day a timestamp falls on. -/
def dayOf (t : Int) : Int := t.fdiv 86400

/-- Lines 42-45: `filtered_df`, the date-range filter.  `date_range` holds
two picker dates `d0`, `d1`; the comparison is against their midnight
timestamps, inclusive on both ends.  A NaT date compares false. -/
def date_filtered (d0 d1 : Int) (df : List Row) : List Row :=
  df.filter fun r =>
    match r.date with
    | some t => decide (midnightOf d0 ≤ t) && decide (t ≤ midnightOf d1)
    | none => false

/-- Lines 50-51: the intersection filter; the sentinel `"All"` leaves the
table unchanged, any other selection keeps exact INTNAME matches. -/
def intersection_filtered (sel : String) (df : List Row) : List Row :=
  if sel = "All" then df else df.filter fun r => r.intname = some sel

/-- Lines 27-28: `to_gbq(..., if_exists="replace")` — the destination
table's prior contents are discarded and replaced by the uploaded table. -/
def to_gbq_replace (prior cleaned : List Row) : List Row :=
  cleaned

/-- Sum of AUTONBL over the rows of `df` whose INTNAME is `name`. -/
def sumFor (df : List Row) (name : String) : Int :=
  ((df.filter fun r => r.intname = some name).map Row.autonbl).sum

/-- Code-point comparison of characters, as Python compares strings. -/
def charLe (a b : Char) : Bool := a.toNat ≤ b.toNat

/-- Lexicographic string comparison on the character lists. -/
def strLeAux : List Char → List Char → Bool
  | [], _ => true
  | _ :: _, [] => false
  | a :: as, b :: bs => if a = b then strLeAux as bs else charLe a b

/-- Python-style (code-point lexicographic) `≤` on strings. -/
def strLe (a b : String) : Bool := strLeAux a.data b.data

/-- `strLe` as a relation, for the sort routine. -/
def strLeRel (a b : String) : Prop := strLe a b = true

instance : DecidableRel strLeRel := fun a b =>
  inferInstanceAs (Decidable (strLe a b = true))

/-- The group keys of `groupby("INTNAME")`: the distinct non-null INTNAME
values, in ascending order (pandas sorts group keys by default). -/
def groupKeys (df : List Row) : List String :=
  List.insertionSort strLeRel (df.filterMap Row.intname).dedup

/-- Descending-by-summed-count order used by
`sort_values(by="AUTONBL", ascending=False)`. -/
def descBySum (a b : String × Int) : Prop := b.2 ≤ a.2

instance : DecidableRel descBySum := fun a b =>
  inferInstanceAs (Decidable (b.2 ≤ a.2))

instance : IsTotal (String × Int) descBySum :=
  ⟨fun a b => (le_total b.2 a.2).imp id id⟩

instance : IsTrans (String × Int) descBySum :=
  ⟨fun _ _ _ h1 h2 => le_trans h2 h1⟩

/-- Lines 55-61: `top_intersections` — group by INTNAME, sum AUTONBL per
group, sort descending by the sum, keep the first 10. -/
def top_intersections (df : List Row) : List (String × Int) :=
  (List.insertionSort descBySum
    ((groupKeys df).map fun n => (n, sumFor df n))).take 10

/-- Lines 117-123: the templated prediction query.  The f-string inlines
the model name and the two user-entered integers as the literal input
columns AUTOSBL and AUTOSBT of the subquery fed to `ML.PREDICT`. -/
structure MLQuery where
  model : String
  autosbl : ℕ
  autosbt : ℕ
deriving DecidableEq, Repr

/-- Lines 117-123: build `ml_query` from the two number inputs (the
`st.number_input` widgets enforce `min_value=0`, so the inputs are
non-negative integers). -/
def ml_query (autosbl autosbt : ℕ) : MLQuery :=
  { model := "proj-452520.TMC.tuning_model"
    autosbl := autosbl
    autosbt := autosbt }

/-- What the prediction branch (lines 125-134) shows: a formatted numeric
prediction, the "No prediction available" message, or the caught-error
message. -/
inductive MLOutcome where
  | success : ℚ → MLOutcome
  | noPrediction : MLOutcome
  | errorMsg : String → MLOutcome
deriving DecidableEq, Repr

/-- Lines 125-134: `client.query(ml_query).to_dataframe()` either raises
(embedded as `Except.error`) or returns the `predicted_AUTONBL` column
(a list of nullable numerics).  `st.success` fires when the frame is
nonempty and its first value is non-null; otherwise the
"No prediction available" `st.error` fires; an exception is caught and
shown as an error message. -/
def displayPrediction (res : Except String (List (Option ℚ))) : MLOutcome :=
  match res with
  | .error e => .errorMsg e
  | .ok [] => .noPrediction
  | .ok (none :: _) => .noPrediction
  | .ok (some v :: _) => .success v

/-- The UI inputs the script reads: the date-range picker (two days), the
intersection select box, and the two numeric prediction inputs. -/
structure UIState where
  d0 : Int
  d1 : Int
  intersection : String
  autosbl : ℕ
  autosbt : ℕ
deriving DecidableEq, Repr

/-- Everything one top-to-bottom run of app.py produces from the fetched
table, the destination table's prior contents, and the UI widget state:
the contents written back (lines 27-28, computed before any widget is
read), the filtered view (lines 42-51), the top-10 aggregation
(lines 55-61), and the prediction query that a button press would send
(lines 117-123). -/
structure AppRun where
  written : List Row
  filtered : List Row
  top10 : List (String × Int)
  predQuery : MLQuery
deriving Repr

/-- One top-to-bottom execution of the script. -/
def runApp (src : List RawRow) (prior : List Row) (ui : UIState) : AppRun :=
  let cleaned := df_cleaned src
  let written := to_gbq_replace prior cleaned
  let cleaned2 := dropna_DATE cleaned
  let filtered :=
    intersection_filtered ui.intersection (date_filtered ui.d0 ui.d1 cleaned2)
  { written := written
    filtered := filtered
    top10 := top_intersections filtered
    predQuery := ml_query ui.autosbl ui.autosbt }

/-- A raw row that survives cleaning unchanged: latitude 37.5 (= 75/2),
longitude -122, a valid date, INTNAME "A". -/
def sampleRaw : RawRow :=
  ⟨some (.fin (Rat.divInt 75 2)), some (.fin (-122)), some 0, some "A", 5⟩

/-- The cleaned form of `sampleRaw`. -/
def sampleRow : Row := coerceRow sampleRaw

/-- A second cleaned row with INTNAME "B". -/
def sampleRowB : Row := ⟨.fin (Rat.divInt 75 2), .fin (-122), some 0, some "B", 20⟩

/-- The example table of the top-10 claim: rows (A,5), (A,7), (B,20). -/
def exampleRows : List Row :=
  [⟨.fin (Rat.divInt 75 2), .fin (-122), some 0, some "A", 5⟩,
   ⟨.fin (Rat.divInt 75 2), .fin (-122), some 0, some "A", 7⟩,
   sampleRowB]

/-- A cleaned row whose DATE is noon (43200 s past midnight) of day 1. -/
def noonRow : Row := ⟨.fin (Rat.divInt 75 2), .fin (-122), some 129600, some "A", 5⟩

/-- Membership in the cleaned table unfolded: the row is a coerced raw row
that passed the null-drop and the bounding-box check. -/
lemma mem_df_cleaned_iff {df : List RawRow} {r : Row} :
    r ∈ df_cleaned df ↔
      r ∈ df.map coerceRow ∧
      (!r.latitude.isna && !r.longitude.isna && !r.date.isNone) = true ∧
      bboxCheck r = true := by
  unfold df_cleaned bboxFilter dropna3
  rw [List.mem_filter, List.mem_filter]
  tauto

/-- A row passing the bounding-box check has finite coordinates strictly
inside the box. -/
lemma bbox_bounds {r : Row} (h : bboxCheck r = true) :
    (∃ a, r.latitude = PVal.fin a ∧ 37 < a ∧ a < 38) ∧
    (∃ b, r.longitude = PVal.fin b ∧
      Rat.divInt (-245) 2 < b ∧ b < Rat.divInt (-243) 2) := by
  unfold bboxCheck at h
  simp only [Bool.and_eq_true] at h
  obtain ⟨⟨⟨h1, h2⟩, h3⟩, h4⟩ := h
  constructor
  · cases hl : r.latitude with
    | nan => rw [hl] at h1; simp [PVal.gtB, PVal.ltB] at h1
    | posInf => rw [hl] at h2; simp [PVal.ltB] at h2
    | negInf => rw [hl] at h1; simp [PVal.gtB, PVal.ltB] at h1
    | fin a =>
      rw [hl] at h1 h2
      simp only [PVal.gtB, PVal.ltB, decide_eq_true_eq] at h1 h2
      exact ⟨a, rfl, h1, h2⟩
  · cases hl : r.longitude with
    | nan => rw [hl] at h3; simp [PVal.gtB, PVal.ltB] at h3
    | posInf => rw [hl] at h4; simp [PVal.ltB] at h4
    | negInf => rw [hl] at h3; simp [PVal.gtB, PVal.ltB] at h3
    | fin b =>
      rw [hl] at h3 h4
      simp only [PVal.gtB, PVal.ltB, decide_eq_true_eq] at h3 h4
      exact ⟨b, rfl, h3, h4⟩

/-- Every row of the cleaned table has finite in-box coordinates and a
non-null date. -/
lemma mem_df_cleaned_valid {df : List RawRow} {r : Row} (h : r ∈ df_cleaned df) :
    (∃ a, r.latitude = PVal.fin a ∧ 37 < a ∧ a < 38) ∧
    (∃ b, r.longitude = PVal.fin b ∧
      Rat.divInt (-245) 2 < b ∧ b < Rat.divInt (-243) 2) ∧
    (∃ t, r.date = some t) := by
  obtain ⟨_, hna, hbb⟩ := mem_df_cleaned_iff.mp h
  obtain ⟨hlat, hlon⟩ := bbox_bounds hbb
  refine ⟨hlat, hlon, ?_⟩
  cases hd : r.date with
  | none => rw [hd] at hna; simp at hna
  | some t => exact ⟨t, rfl⟩

/-- Claim C1: for every filtered table, the top-10 aggregation has at most
10 rows, is sorted descending by summed count, each reported sum equals
the sum of the AUTONBL values of exactly the rows with that intersection
name, and the example table {(A,5), (A,7), (B,20)} yields
[(B,20), (A,12)]. -/
theorem c1_top_intersections_spec (df : List Row) :
    (top_intersections df).length ≤ 10 ∧
    List.Sorted descBySum (top_intersections df) ∧
    (∀ p ∈ top_intersections df, p.2 = sumFor df p.1) ∧
    top_intersections exampleRows = [("B", 20), ("A", 12)] := by
  refine ⟨?_, ?_, ?_, by decide⟩
  · exact List.length_take_le _ _
  · exact List.Pairwise.sublist (List.take_sublist _ _)
      (List.sorted_insertionSort descBySum _)
  · intro p hp
    have hp2 : p ∈ List.insertionSort descBySum
        ((groupKeys df).map fun n => (n, sumFor df n)) :=
      (List.take_sublist _ _).subset hp
    have hp3 : p ∈ (groupKeys df).map fun n => (n, sumFor df n) :=
      (List.perm_insertionSort descBySum _).subset hp2
    obtain ⟨n, _, he⟩ := List.mem_map.mp hp3
    subst he
    rfl

/-- Witness for C1 at the example table and the member ("A", 12). -/
theorem c1_top_intersections_spec_witness :
    (top_intersections exampleRows).length ≤ 10 ∧
    List.Sorted descBySum (top_intersections exampleRows) ∧
    ("A", (12 : Int)).2 = sumFor exampleRows ("A", (12 : Int)).1 := by
  obtain ⟨h1, h2, h3, _⟩ := c1_top_intersections_spec exampleRows
  exact ⟨h1, h2, h3 ("A", 12) (by decide)⟩

/-- Claim C2: every row of the cleaned table has LATITUDE strictly between
37.0 and 38.0 and LONGITUDE strictly between -122.5 and -121.5. -/
theorem c2_bbox_invariant (df : List RawRow) (r : Row) (h : r ∈ df_cleaned df) :
    (∃ a, r.latitude = PVal.fin a ∧ 37 < a ∧ a < 38) ∧
    (∃ b, r.longitude = PVal.fin b ∧
      Rat.divInt (-245) 2 < b ∧ b < Rat.divInt (-243) 2) :=
  ⟨(mem_df_cleaned_valid h).1, (mem_df_cleaned_valid h).2.1⟩

/-- Witness for C2 at a concrete surviving row. -/
theorem c2_bbox_invariant_witness :
    (∃ a, sampleRow.latitude = PVal.fin a ∧ 37 < a ∧ a < 38) ∧
    (∃ b, sampleRow.longitude = PVal.fin b ∧
      Rat.divInt (-245) 2 < b ∧ b < Rat.divInt (-243) 2) :=
  c2_bbox_invariant [sampleRaw] sampleRow (by decide)

/-- Claim C3: after cleaning, every row of the input table either appears
in the cleaned table with finite LATITUDE and LONGITUDE and a valid
(non-null) DATE, or is absent from the cleaned table. -/
theorem c3_cleaned_fields_valid (df : List RawRow) (s : RawRow) (h : s ∈ df) :
    (coerceRow s ∈ df_cleaned df ∧
      (∃ a, (coerceRow s).latitude = PVal.fin a) ∧
      (∃ b, (coerceRow s).longitude = PVal.fin b) ∧
      (∃ t, (coerceRow s).date = some t)) ∨
    coerceRow s ∉ df_cleaned df := by
  by_cases hm : coerceRow s ∈ df_cleaned df
  · obtain ⟨⟨a, ha, _⟩, ⟨b, hb, _⟩, ht⟩ := mem_df_cleaned_valid hm
    exact Or.inl ⟨hm, ⟨a, ha⟩, ⟨b, hb⟩, ht⟩
  · exact Or.inr hm

/-- Witness for C3 at a concrete raw row of a concrete table. -/
theorem c3_cleaned_fields_valid_witness :
    (coerceRow sampleRaw ∈ df_cleaned [sampleRaw] ∧
      (∃ a, (coerceRow sampleRaw).latitude = PVal.fin a) ∧
      (∃ b, (coerceRow sampleRaw).longitude = PVal.fin b) ∧
      (∃ t, (coerceRow sampleRaw).date = some t)) ∨
    coerceRow sampleRaw ∉ df_cleaned [sampleRaw] :=
  c3_cleaned_fields_valid [sampleRaw] sampleRaw (by decide)

/-- Claim C4 as stated is false: `noonRow` has its DATE at noon of day 1,
so it falls on day d1 = 1 of the picked range [0, 1], yet the date filter
excludes it, because the code compares the full timestamp against
midnight of day 1. -/
theorem c4_day_range_counterexample :
    noonRow ∈ [noonRow] ∧
    noonRow.date = some 129600 ∧
    0 ≤ dayOf 129600 ∧ dayOf 129600 ≤ 1 ∧
    noonRow ∉ date_filtered 0 1 [noonRow] := by decide

/-- Claim C4 (amended): the date-filtered view contains exactly the rows
whose DATE timestamp t satisfies midnight(d0) ≤ t ≤ midnight(d1),
inclusive on both endpoints; a row whose DATE is exactly midnight of day
d1 is included, but a row with a later time on day d1 is excluded. -/
theorem c4_date_filter_inclusive (df : List Row) (d0 d1 : Int) (r : Row) :
    r ∈ date_filtered d0 d1 df ↔
      r ∈ df ∧ ∃ t, r.date = some t ∧ midnightOf d0 ≤ t ∧ t ≤ midnightOf d1 := by
  unfold date_filtered
  rw [List.mem_filter]
  constructor
  · rintro ⟨hm, hp⟩
    refine ⟨hm, ?_⟩
    cases hd : r.date with
    | none => rw [hd] at hp; simp at hp
    | some t =>
      rw [hd] at hp
      simp only [Bool.and_eq_true, decide_eq_true_eq] at hp
      exact ⟨t, rfl, hp.1, hp.2⟩
  · rintro ⟨hm, t, hd, h1, h2⟩
    refine ⟨hm, ?_⟩
    rw [hd]
    simp [h1, h2]

/-- Claim C5: filtering with the sentinel "All" is the identity, and
filtering with a specific intersection name keeps exactly the rows whose
INTNAME equals that name. -/
theorem c5_intersection_filter (df : List Row) (sel : String) (r : Row)
    (h : sel ≠ "All") :
    intersection_filtered "All" df = df ∧
    (r ∈ intersection_filtered sel df ↔ r ∈ df ∧ r.intname = some sel) := by
  constructor
  · simp [intersection_filtered]
  · unfold intersection_filtered
    rw [if_neg h, List.mem_filter]
    simp

/-- Witness for C5 with selection "A" on a two-row table. -/
theorem c5_intersection_filter_witness :
    intersection_filtered "All" [sampleRow, sampleRowB] = [sampleRow, sampleRowB] ∧
    (sampleRow ∈ intersection_filtered "A" [sampleRow, sampleRowB] ↔
      sampleRow ∈ [sampleRow, sampleRowB] ∧ sampleRow.intname = some "A") :=
  c5_intersection_filter [sampleRow, sampleRowB] "A" sampleRow (by decide)

/-- Claim C6: the prediction request carries exactly the two entered
values as the model input columns, and the displayed outcome is exactly
one of: a numeric prediction (nonempty result with non-null first value),
the "no prediction available" message (empty result or null first value),
or the caught-error message — never a silently empty UI. -/
theorem c6_prediction_outcomes (a b : ℕ) (res : Except String (List (Option ℚ))) :
    (ml_query a b).autosbl = a ∧ (ml_query a b).autosbt = b ∧
    ((∃ v rest, res = .ok (some v :: rest) ∧ displayPrediction res = .success v) ∨
     ((res = .ok [] ∨ ∃ rest, res = .ok (none :: rest)) ∧
       displayPrediction res = .noPrediction) ∨
     (∃ e, res = .error e ∧ displayPrediction res = .errorMsg e)) := by
  refine ⟨rfl, rfl, ?_⟩
  rcases res with e | l
  · exact Or.inr (Or.inr ⟨e, rfl, rfl⟩)
  · rcases l with _ | ⟨ov, rest⟩
    · exact Or.inr (Or.inl ⟨Or.inl rfl, rfl⟩)
    · rcases ov with _ | v
      · exact Or.inr (Or.inl ⟨Or.inr ⟨rest, rfl⟩, rfl⟩)
      · exact Or.inl ⟨v, rest, rfl, rfl⟩

/-- Claim C7: the write-back replaces the destination's prior contents
with the cleaned table, and doing it twice with unchanged source data
leaves the destination equal to the cleaned table. -/
theorem c7_writeback_replace_idempotent (src : List RawRow) (prior : List Row) :
    to_gbq_replace prior (df_cleaned src) = df_cleaned src ∧
    to_gbq_replace (to_gbq_replace prior (df_cleaned src)) (df_cleaned src) =
      to_gbq_replace prior (df_cleaned src) :=
  ⟨rfl, rfl⟩

/-- Claim C8: cleaning is order-preserving over surviving rows — the
cleaned table is a sublist of the coerced raw table, so any two surviving
rows keep their relative order. -/
theorem c8_clean_order_preserving (df : List RawRow) :
    (df_cleaned df).Sublist (df.map coerceRow) := by
  unfold df_cleaned bboxFilter dropna3
  exact List.Sublist.trans (List.filter_sublist _) (List.filter_sublist _)

/-- Claim C9: the contents written to the destination table do not depend
on any UI input — two runs on the same source data with different widget
states write identical contents. -/
theorem c9_written_ui_independent (src : List RawRow) (prior : List Row)
    (u1 u2 : UIState) :
    (runApp src prior u1).written = (runApp src prior u2).written :=
  rfl

/-- Claim C10: the second `dropna(subset=["DATE"])` after write-back is a
no-op: the cleaned table already contains no null DATE values. -/
theorem c10_second_dropna_noop (df : List RawRow) :
    dropna_DATE (df_cleaned df) = df_cleaned df := by
  unfold dropna_DATE
  rw [List.filter_eq_self]
  intro r hr
  obtain ⟨_, _, t, ht⟩ := mem_df_cleaned_valid hr
  rw [ht]
  rfl
